import Mathlib

/-!
Shallow embedding of the MilitaryTelemedicine web application (src/app.py).

The application is a single-file Flask app: a `User` table, a `Consultation`
table, and seven routes (index, login, logout, register, profile,
consultation_request, consultations, chat).  Each HTTP request handler is
embedded as a pure function from the database state (and the session user,
form data and query arguments of the request) to the new database state and
an HTTP result.  Each handler runs to completion atomically, matching the
per-request execution model of the app.

Notable faithfulness points:
- `generate_password_hash` (werkzeug) is modelled abstractly as a tagged
  injective function: its output always carries the hash-method prefix, so
  it never equals the plaintext input, as with the real implementation.
- app.py line 100 calls `url_parse`, a name that is never imported anywhere
  in the file; evaluating that expression raises an uncaught `NameError`.
  The embedding of the login handler therefore returns an `Except.error`
  exactly on the branch where Python would evaluate `url_parse(next_page)`.
- `/logout` (app.py lines 105-108) carries no `login_required` decorator,
  so its embedding performs the logout for any caller, authenticated or not.
-/

/-- An account row, mirroring the `User` model of app.py (lines 24-37). -/
structure User where
  id : Nat
  username : String
  email : String
  password_hash : String
  role : String
deriving DecidableEq

/-- A consultation row, mirroring the `Consultation` model of app.py
(lines 43-49).  `timestamp` is an abstract clock value. -/
structure Consultation where
  id : Nat
  body : String
  timestamp : Nat
  user_id : Nat
  responder_id : Option Nat
  response : Option String
deriving DecidableEq

/-- The relational store: the two tables created by `db.create_all()`. -/
structure DB where
  users : List User
  consultations : List Consultation
deriving DecidableEq

/-- The outcome of a request handler: a redirect, a rendered template
(with the data passed to the chat and consultations templates made
explicit), or the 404 produced by `get_or_404`. -/
inductive HttpResult where
  | redirect (target : String)
  | render (template : String)
  | renderChat (c : Consultation)
  | renderConsultations (items : List Consultation)
  | notFound
deriving DecidableEq

/-- The werkzeug function `generate_password_hash`, modelled abstractly: the output is
the password passed through an injective encoding that always carries the
hash-method prefix, hence is never the plaintext itself. -/
def generate_password_hash (password : String) : String :=
  "pbkdf2:sha256$" ++ password

/-- The werkzeug function `check_password_hash`, matching the model above. -/
def check_password_hash (stored password : String) : Bool :=
  stored == generate_password_hash password

/-- WTForms `DataRequired` fails on a missing value or a string that is
empty after stripping whitespace: blank means every character is
whitespace (including the empty string). -/
def isBlank (s : String) : Bool :=
  s.toList.all (fun c => c.isWhitespace)

/-- WTForms `Email` validator, modelled as: exactly one `@`, a non-empty
local part, and a non-empty domain containing a dot. -/
def validEmail (e : String) : Bool :=
  let cs := e.toList
  let lp := cs.takeWhile (fun c => c ≠ '@')
  match cs.dropWhile (fun c => c ≠ '@') with
  | '@' :: rest =>
      (lp != []) && (rest != []) && !rest.contains '@' && rest.contains '.'
  | _ => false

/-- Uniqueness probe `User.query.filter_by(username=...).first() is not
None` (app.py lines 67-70). -/
def usernameTaken (db : DB) (name : String) : Bool :=
  db.users.any (fun u => u.username == name)

/-- Uniqueness probe `User.query.filter_by(email=...).first() is not
None` (app.py lines 72-75). -/
def emailTaken (db : DB) (addr : String) : Bool :=
  db.users.any (fun u => u.email == addr)

/-- The autoincrement primary key: one more than the largest id in use. -/
def nextId (ids : List Nat) : Nat :=
  ids.foldr max 0 + 1

/-- Fresh id for a new `User` row. -/
def nextUid (db : DB) : Nat :=
  nextId (db.users.map (fun u => u.id))

/-- Fresh id for a new `Consultation` row. -/
def nextCid (db : DB) : Nat :=
  nextId (db.consultations.map (fun c => c.id))

/-- Fields of `LoginForm` (app.py lines 52-56). -/
structure LoginForm where
  username : String
  password : String
  remember_me : Bool
deriving DecidableEq

/-- Fields of `RegistrationForm` (app.py lines 58-65). -/
structure RegistrationForm where
  username : String
  email : String
  password : String
  password2 : String
  role : String
deriving DecidableEq

/-- A request to the chat route: whether it is a POST, and the value of
`request.form.get('response')` (`none` when the field is absent). -/
structure ChatRequest where
  isPost : Bool
  response : Option String
deriving DecidableEq

/-- Validation of `RegistrationForm`: the `DataRequired`, `Email` and
`EqualTo('password')` field validators plus the custom uniqueness checks
`validate_username` and `validate_email` (app.py lines 58-75). -/
def registrationValid (db : DB) (f : RegistrationForm) : Bool :=
  !isBlank f.username && !isBlank f.email && validEmail f.email &&
  !isBlank f.password && !isBlank f.password2 && (f.password2 == f.password) &&
  !isBlank f.role &&
  !usernameTaken db f.username && !emailTaken db f.email

/-- Route `/` and `/index` (app.py lines 82-86), guarded by
`login_required`: unauthenticated callers are redirected to the login view. -/
def index_route (cu : Option User) : HttpResult :=
  match cu with
  | none => .redirect "/login"
  | some _ => .render "index.html"

/-- Route `/profile` (app.py lines 124-128), guarded by `login_required`. -/
def profile_route (cu : Option User) : HttpResult :=
  match cu with
  | none => .redirect "/login"
  | some _ => .render "profile.html"

/-- Route `/logout` (app.py lines 105-108).  There is no `login_required`
decorator on it: any caller, authenticated or not, has `logout_user()`
executed and is redirected home. -/
def logout_route (_cu : Option User) : Option User × HttpResult :=
  (none, .redirect "/index")

/-- Route `/login` (app.py lines 88-103).  Returns the new session user and
the response, or `Except.error` when the handler raises.  The handler
references `url_parse` (line 100) which is never imported in app.py, so the
branch that would evaluate `url_parse(next_page)` — reached exactly when a
successful login carries a non-empty `next` query argument — raises an
uncaught `NameError`.  `not next_page` in Python short-circuits the call
when `next_page` is `None` or the empty string. -/
def login_route (db : DB) (cu : Option User) (form : Option LoginForm)
    (next_arg : Option String) : Except String (Option User × HttpResult) :=
  match cu with
  | some u => .ok (some u, .redirect "/index")
  | none =>
    match form with
    | none => .ok (none, .render "login.html")
    | some f =>
      if isBlank f.username || isBlank f.password then
        .ok (none, .render "login.html")
      else
        match db.users.find? (fun u => u.username == f.username) with
        | none => .ok (none, .redirect "/login")
        | some u =>
          if check_password_hash u.password_hash f.password then
            match next_arg with
            | none => .ok (some u, .redirect "/index")
            | some np =>
              if np == "" then .ok (some u, .redirect "/index")
              else .error "NameError: name url_parse is not defined"
          else .ok (none, .redirect "/login")

/-- Route `/register` (app.py lines 110-122).  `form = none` models a GET;
on a valid submission exactly one `User` row is added, with the hashed
password and the role string taken verbatim from the form. -/
def register_route (db : DB) (cu : Option User) (form : Option RegistrationForm) :
    DB × HttpResult :=
  match cu with
  | some _ => (db, .redirect "/index")
  | none =>
    match form with
    | none => (db, .render "register.html")
    | some f =>
      if registrationValid db f then
        ({ db with users := db.users ++
            [{ id := nextUid db, username := f.username, email := f.email,
               password_hash := generate_password_hash f.password,
               role := f.role }] },
         .redirect "/login")
      else (db, .render "register.html")

/-- Route `/consultation_request` (app.py lines 130-140), guarded by
`login_required`.  `body = none` models a GET; `validate_on_submit`
fails when the body is blank (`DataRequired`), in which case no row is
created.  On success a row is created with `author = current_user` and the
column defaults `responder_id = None`, `response = None`,
`timestamp = now`. -/
def consultation_request (db : DB) (cu : Option User) (body : Option String)
    (now : Nat) : DB × HttpResult :=
  match cu with
  | none => (db, .redirect "/login")
  | some u =>
    match body with
    | none => (db, .render "consultation_request.html")
    | some b =>
      if isBlank b then (db, .render "consultation_request.html")
      else
        ({ db with consultations := db.consultations ++
            [{ id := nextCid db, body := b, timestamp := now, user_id := u.id,
               responder_id := none, response := none }] },
         .redirect "/index")

/-- Route `/consultations` (app.py lines 142-148), guarded by
`login_required`; a session user whose role is not `doctor` is silently
redirected home, a doctor gets the rows with `responder_id = None`. -/
def consultations_route (db : DB) (cu : Option User) : HttpResult :=
  match cu with
  | none => .redirect "/login"
  | some u =>
    if u.role != "doctor" then .redirect "/index"
    else .renderConsultations
      (db.consultations.filter (fun c => c.responder_id == none))

/-- Writing the mutated consultation row back to the store
(`db.session.commit()` after mutating the mapped object): the row with the
same primary key is replaced. -/
def updateConsultation (db : DB) (c : Consultation) : DB :=
  { db with consultations :=
      db.consultations.map (fun x => if x.id == c.id then c else x) }

/-- app.py lines 154-156: a doctor viewing an unclaimed consultation is
recorded as its responder; in every other case the row is untouched. -/
def claimRow (u : User) (c : Consultation) : Consultation :=
  if u.role == "doctor" && c.responder_id == none
  then { c with responder_id := some u.id } else c

/-- app.py lines 157-160: on a POST the `response` column is overwritten
with `request.form.get('response')` unconditionally. -/
def respondRow (req : ChatRequest) (c : Consultation) : Consultation :=
  if req.isPost then { c with response := req.response } else c

/-- Route `/chat/<consultation_id>` (app.py lines 150-161), guarded by
`login_required`.  `get_or_404` yields `notFound` when no row has the id;
otherwise the claim step and the respond step run in order and the mutated
row is committed. -/
def chat (db : DB) (cu : Option User) (cid : Nat) (req : ChatRequest) :
    DB × HttpResult :=
  match cu with
  | none => (db, .redirect "/login")
  | some u =>
    match db.consultations.find? (fun c => c.id == cid) with
    | none => (db, .notFound)
    | some c =>
      let c2 := respondRow req (claimRow u c)
      (updateConsultation db c2, .renderChat c2)

/-- Look a session user up by id (`load_user`, app.py lines 39-41). -/
def findUser (db : DB) (uid : Nat) : Option User :=
  db.users.find? (fun u => u.id == uid)

/-- The database-mutating operations of the workflow.  The remaining routes
(index, profile, login, logout, consultations) never write to the store, as
their definitions above show. -/
inductive Op where
  | opRegister (f : RegistrationForm)
  | opSubmit (uid : Nat) (body : Option String) (now : Nat)
  | opChat (uid : Nat) (cid : Nat) (req : ChatRequest)

/-- One workflow request, performed by the session user with id `uid`
(or by an unauthenticated caller when that id is not a user). -/
def step (db : DB) (op : Op) : DB :=
  match op with
  | .opRegister f => (register_route db none (some f)).1
  | .opSubmit uid body now => (consultation_request db (findUser db uid) body now).1
  | .opChat uid cid req => (chat db (findUser db uid) cid req).1

/-- A sequence of workflow requests, executed in order. -/
def stepList (db : DB) (ops : List Op) : DB :=
  ops.foldl step db

/-- Primary keys of the consultation table are pairwise distinct. -/
def idsNodup (db : DB) : Prop :=
  (db.consultations.map (fun c => c.id)).Nodup

/-- The consultation with id `i` exists and has been claimed by the doctor
with id `d`. -/
def claimedBy (db : DB) (i d : Nat) : Prop :=
  ∃ c, c ∈ db.consultations ∧ c.id = i ∧ c.responder_id = some d

/-- Sample data for concrete evaluations: a military requester. -/
def alice : User :=
  { id := 1, username := "alice", email := "a@x.com",
    password_hash := generate_password_hash "secret", role := "military" }

/-- Sample data: the doctor who has claimed the sample consultation. -/
def drBob : User :=
  { id := 2, username := "bob", email := "b@x.com",
    password_hash := generate_password_hash "pw2", role := "doctor" }

/-- Sample data: a second doctor. -/
def drCarol : User :=
  { id := 3, username := "carol", email := "c@x.com",
    password_hash := generate_password_hash "pw3", role := "doctor" }

/-- Sample data: a consultation submitted by alice, claimed by drBob, with
a stored response. -/
def sampleConsultation : Consultation :=
  { id := 1, body := "need help", timestamp := 0, user_id := 1,
    responder_id := some 2, response := some "old" }

/-- Sample database holding the three users and the claimed consultation. -/
def sampleDB : DB :=
  { users := [alice, drBob, drCarol], consultations := [sampleConsultation] }

/-- The hash-method prefix makes the stored hash longer than the password,
so the stored value is never the plaintext. -/
theorem generate_password_hash_ne (p : String) : generate_password_hash p ≠ p := by
  intro h
  have h2 := congrArg String.length h
  rw [show generate_password_hash p = "pbkdf2:sha256$" ++ p from rfl,
      String.length_append] at h2
  have h3 : ("pbkdf2:sha256$").length = 14 := by decide
  rw [h3] at h2
  omega

/-- The claim step never changes the primary key of a row. -/
theorem claimRow_id (u : User) (c : Consultation) : (claimRow u c).id = c.id := by
  unfold claimRow
  split <;> rfl

/-- The respond step never changes the primary key of a row. -/
theorem respondRow_id (req : ChatRequest) (c : Consultation) :
    (respondRow req c).id = c.id := by
  unfold respondRow
  split <;> rfl

/-- The respond step never touches the responder column. -/
theorem respondRow_responder (req : ChatRequest) (c : Consultation) :
    (respondRow req c).responder_id = c.responder_id := by
  unfold respondRow
  split <;> rfl

/-- The claim step assigns the viewer exactly when the viewer is a doctor
and the row is unclaimed. -/
theorem claimRow_responder (u : User) (c : Consultation) :
    (claimRow u c).responder_id =
      if u.role = "doctor" ∧ c.responder_id = none then some u.id
      else c.responder_id := by
  unfold claimRow
  by_cases h : u.role = "doctor" ∧ c.responder_id = none
  · simp [h.1, h.2]
  · rw [if_neg h]
    split
    · next hcond =>
      exfalso
      apply h
      simpa [Bool.and_eq_true, beq_iff_eq] using hcond
    · rfl

/-- A row that already has a responder passes through the claim step
unchanged. -/
theorem claimRow_claimed (u : User) (c : Consultation) (d : Nat)
    (h : c.responder_id = some d) : claimRow u c = c := by
  unfold claimRow
  rw [h]
  simp

/-- On a POST, the respond step stores exactly the submitted form value. -/
theorem respondRow_response_post (r : Option String) (c : Consultation) :
    (respondRow { isPost := true, response := r } c).response = r := rfl

/-- Committing a mutated row leaves the multiset of primary keys intact. -/
theorem updateConsultation_ids (db : DB) (c : Consultation) :
    (updateConsultation db c).consultations.map (fun x => x.id)
      = db.consultations.map (fun x => x.id) := by
  unfold updateConsultation
  rw [List.map_map]
  apply List.map_congr_left
  intro x _
  simp only [Function.comp]
  by_cases h : x.id = c.id
  · simp [h]
  · simp [h]

/-- Committing a mutated row keeps it in the table, provided some row with
its primary key was there. -/
theorem mem_updateConsultation (db : DB) (c2 c : Consultation)
    (hc : c ∈ db.consultations) (hid : c.id = c2.id) :
    c2 ∈ (updateConsultation db c2).consultations := by
  have h1 := List.mem_map_of_mem (fun x => if x.id == c2.id then c2 else x) hc
  simpa [updateConsultation, hid] using h1

/-- Elements are bounded by the running maximum. -/
theorem le_foldr_max (x : Nat) (ids : List Nat) :
    x ∈ ids → x ≤ ids.foldr max 0 := by
  induction ids with
  | nil =>
    intro hx
    cases hx
  | cons a l ih =>
    intro hx
    rcases List.mem_cons.mp hx with h1 | h1
    · subst h1
      exact Nat.le_max_left _ _
    · exact le_trans (ih h1) (Nat.le_max_right _ _)

/-- Freshly allocated primary keys are strictly larger than every key in
use. -/
theorem mem_lt_nextId (ids : List Nat) (x : Nat) (hx : x ∈ ids) : x < nextId ids :=
  Nat.lt_succ_of_le (le_foldr_max x ids hx)

/-- The register route never writes to the consultation table. -/
theorem register_route_consultations (db : DB) (cu : Option User)
    (form : Option RegistrationForm) :
    (register_route db cu form).1.consultations = db.consultations := by
  rcases cu with _ | u
  · rcases form with _ | f
    · rfl
    · simp only [register_route]
      split <;> rfl
  · rfl

/-- Appending a row carrying the freshly allocated primary key keeps the
keys of the consultation table distinct. -/
theorem idsNodup_append_fresh (db : DB) (c : Consultation)
    (hnd : idsNodup db) (hfresh : c.id = nextCid db) :
    ((db.consultations ++ [c]).map (fun x => x.id)).Nodup := by
  rw [List.map_append, List.nodup_append]
  refine ⟨hnd, by simp, ?_⟩
  intro x hx1 hx2
  simp only [List.map_cons, List.map_nil, List.mem_singleton] at hx2
  subst hx2
  rw [hfresh] at hx1
  exact absurd (mem_lt_nextId _ _ hx1) (lt_irrefl _)

/-- One workflow request preserves distinctness of consultation primary
keys and every recorded claim. -/
theorem step_preserves (db : DB) (op : Op) (i d : Nat)
    (hnd : idsNodup db) (hcl : claimedBy db i d) :
    idsNodup (step db op) ∧ claimedBy (step db op) i d := by
  obtain ⟨w, hwmem, hwid, hwresp⟩ := hcl
  cases op with
  | opRegister f =>
    constructor
    · unfold idsNodup step
      rw [register_route_consultations]
      exact hnd
    · show ∃ c, c ∈ (step db (Op.opRegister f)).consultations ∧ _
      unfold step
      rw [register_route_consultations]
      exact ⟨w, hwmem, hwid, hwresp⟩
  | opSubmit uid body now =>
    cases hfu : findUser db uid with
    | none =>
      simp only [step, consultation_request, hfu]
      exact ⟨hnd, w, hwmem, hwid, hwresp⟩
    | some u =>
      cases body with
      | none =>
        simp only [step, consultation_request, hfu]
        exact ⟨hnd, w, hwmem, hwid, hwresp⟩
      | some b =>
        by_cases hb : isBlank b = true
        · simp only [step, consultation_request, hfu, hb, if_true]
          exact ⟨hnd, w, hwmem, hwid, hwresp⟩
        · simp only [step, consultation_request, hfu]
          rw [if_neg hb]
          constructor
          · exact idsNodup_append_fresh db _ hnd rfl
          · exact ⟨w, List.mem_append_left _ hwmem, hwid, hwresp⟩
  | opChat uid cid req =>
    cases hfu : findUser db uid with
    | none =>
      simp only [step, chat, hfu]
      exact ⟨hnd, w, hwmem, hwid, hwresp⟩
    | some u =>
      cases hf : db.consultations.find? (fun c => c.id == cid) with
      | none =>
        simp only [step, chat, hfu, hf]
        exact ⟨hnd, w, hwmem, hwid, hwresp⟩
      | some c =>
        have hcmem : c ∈ db.consultations := List.mem_of_find?_eq_some hf
        have hstep : step db (Op.opChat uid cid req)
            = updateConsultation db (respondRow req (claimRow u c)) := by
          simp only [step, chat, hfu, hf]
        constructor
        · unfold idsNodup
          rw [hstep, updateConsultation_ids]
          exact hnd
        · rw [hstep]
          by_cases hwc : w.id = c.id
          · have hweq : w = c :=
              List.inj_on_of_nodup_map hnd hwmem hcmem hwc
            subst hweq
            have hclaim : claimRow u w = w := claimRow_claimed u w d hwresp
            refine ⟨respondRow req (claimRow u w), ?_, ?_, ?_⟩
            · exact mem_updateConsultation db _ w hwmem
                (by rw [hclaim, respondRow_id])
            · rw [respondRow_id, hclaim]
              exact hwid
            · rw [respondRow_responder, hclaim]
              exact hwresp
          · refine ⟨w, ?_, hwid, hwresp⟩
            have h1 := List.mem_map_of_mem
              (fun x => if x.id == (respondRow req (claimRow u c)).id
                        then respondRow req (claimRow u c) else x) hwmem
            have hne : (w.id == (respondRow req (claimRow u c)).id) = false := by
              rw [respondRow_id, claimRow_id]
              simpa using hwc
            simpa [updateConsultation, hne] using h1

/-- A whole sequence of workflow requests preserves key distinctness and
every recorded claim. -/
theorem stepList_preserves (db : DB) (ops : List Op) (i d : Nat)
    (hnd : idsNodup db) (hcl : claimedBy db i d) :
    idsNodup (stepList db ops) ∧ claimedBy (stepList db ops) i d := by
  induction ops generalizing db with
  | nil => exact ⟨hnd, hcl⟩
  | cons op rest ih =>
    have h1 := step_preserves db op i d hnd hcl
    exact ih (step db op) h1.1 h1.2

/-- C1: for every consultation, the responder is set at most once: in any
database whose consultation keys are distinct, once the responder_id of a
consultation is non-null, no sequence of further workflow requests (by any
users, including further chat opens and responses) ever changes it — in
particular a second doctor opening an already claimed consultation leaves
the first doctor as responder. -/
theorem responder_set_at_most_once (db : DB) (ops : List Op) (i d : Nat)
    (hnd : idsNodup db) (hcl : claimedBy db i d) :
    claimedBy (stepList db ops) i d ∧
      ∀ c ∈ (stepList db ops).consultations, c.id = i → c.responder_id = some d := by
  obtain ⟨hnd2, hcl2⟩ := stepList_preserves db ops i d hnd hcl
  refine ⟨hcl2, ?_⟩
  obtain ⟨w, hw, hwi, hwr⟩ := hcl2
  intro c hc hci
  have hcw : c = w :=
    List.inj_on_of_nodup_map hnd2 hc hw (by rw [hci, hwi])
  rw [hcw]
  exact hwr

/-- C1 witness: in the sample database, the consultation claimed by the
doctor with id 2 keeps that responder after a second doctor (id 3) opens
its chat and a user posts a response. -/
theorem responder_set_at_most_once_witness :
    claimedBy
      (stepList sampleDB
        [Op.opChat 3 1 { isPost := false, response := none },
         Op.opChat 1 1 { isPost := true, response := some "thanks" }]) 1 2 ∧
      ∀ c ∈ (stepList sampleDB
        [Op.opChat 3 1 { isPost := false, response := none },
         Op.opChat 1 1 { isPost := true, response := some "thanks" }]).consultations,
        c.id = 1 → c.responder_id = some 2 :=
  responder_set_at_most_once sampleDB
    [Op.opChat 3 1 { isPost := false, response := none },
     Op.opChat 1 1 { isPost := true, response := some "thanks" }] 1 2
    (by unfold idsNodup; decide)
    ⟨sampleConsultation, by decide, rfl, rfl⟩

/-- C3: with an active session and a non-blank body, the consultation
route appends exactly one new row, with requester the session user,
responder null, response null and the current timestamp; with a blank body
it leaves the database unchanged and re-renders the form. -/
theorem submit_consultation (db : DB) (u : User) (b : String) (now : Nat) :
    (isBlank b = false →
      consultation_request db (some u) (some b) now
        = ({ db with consultations := db.consultations ++
            [{ id := nextCid db, body := b, timestamp := now, user_id := u.id,
               responder_id := none, response := none }] },
           HttpResult.redirect "/index")) ∧
    (isBlank b = true →
      consultation_request db (some u) (some b) now
        = (db, HttpResult.render "consultation_request.html")) := by
  constructor
  · intro h
    simp [consultation_request, h]
  · intro h
    simp [consultation_request, h]

/-- C3 witness: alice submits the body "need help" at time 5 and exactly
one open row is appended; a whitespace-only body at time 6 changes
nothing. -/
theorem submit_consultation_witness :
    consultation_request sampleDB (some alice) (some "need help") 5
      = ({ sampleDB with consultations := sampleDB.consultations ++
          [{ id := nextCid sampleDB, body := "need help", timestamp := 5,
             user_id := alice.id, responder_id := none, response := none }] },
         HttpResult.redirect "/index") ∧
    consultation_request sampleDB (some alice) (some "   ") 6
      = (sampleDB, HttpResult.render "consultation_request.html") :=
  ⟨(submit_consultation sampleDB alice "need help" 5).1 (by decide),
   (submit_consultation sampleDB alice "   " 6).2 (by decide)⟩

/-- C4: for a session user with role doctor, the consultations route
renders exactly the set of rows whose responder is null; for any other
role the request is silently redirected home. -/
theorem consultations_doctor_queue (db : DB) (u : User) :
    (u.role = "doctor" →
      consultations_route db (some u)
        = HttpResult.renderConsultations
            (db.consultations.filter (fun c => c.responder_id == none)) ∧
      ∀ c, (c ∈ db.consultations.filter (fun c => c.responder_id == none)
              ↔ c ∈ db.consultations ∧ c.responder_id = none)) ∧
    (u.role ≠ "doctor" →
      consultations_route db (some u) = HttpResult.redirect "/index") := by
  constructor
  · intro h
    constructor
    · simp [consultations_route, h]
    · intro c
      simp [List.mem_filter]
  · intro h
    simp [consultations_route, h]

/-- C4 witness: doctor bob sees exactly the unclaimed rows of the sample
database (the claimed sample consultation is filtered out), while military
alice is redirected home. -/
theorem consultations_doctor_queue_witness :
    (consultations_route sampleDB (some drBob)
        = HttpResult.renderConsultations
            (sampleDB.consultations.filter (fun c => c.responder_id == none)) ∧
      ∀ c, (c ∈ sampleDB.consultations.filter (fun c => c.responder_id == none)
              ↔ c ∈ sampleDB.consultations ∧ c.responder_id = none)) ∧
    consultations_route sampleDB (some alice) = HttpResult.redirect "/index" :=
  ⟨(consultations_doctor_queue sampleDB drBob).1 rfl,
   (consultations_doctor_queue sampleDB alice).2 (by decide)⟩

/-- C7 (code defect): app.py line 100 uses `url_parse` but the module
never imports it, so a successful login that carries a preserved `next`
path raises an uncaught NameError (HTTP 500) instead of redirecting to
that path; only the no-preserved-path case redirects home successfully. -/
theorem login_next_redirect_bug :
    login_route { users := [alice], consultations := [] } none
        (some { username := "alice", password := "secret", remember_me := false })
        (some "/profile")
      = Except.error "NameError: name url_parse is not defined" ∧
    login_route { users := [alice], consultations := [] } none
        (some { username := "alice", password := "secret", remember_me := false })
        none
      = Except.ok (some alice, HttpResult.redirect "/index") :=
  ⟨rfl, rfl⟩

/-- C9 counterexample: an unauthenticated GET of /logout is not redirected
to the login page; the route has no login_required decorator, performs the
logout and redirects home, so the claim fails for /logout. -/
theorem logout_unauthenticated_not_login :
    logout_route none = (none, HttpResult.redirect "/index") ∧
    ((none, HttpResult.redirect "/index") : Option User × HttpResult)
      ≠ (none, HttpResult.redirect "/login") :=
  ⟨rfl, by decide⟩

/-- C9 amended: every workflow route that carries the login_required
decorator (index, profile, consultation_request, consultations, chat)
redirects unauthenticated access to the login page without touching the
database, but /logout does not: it performs the logout unconditionally and
redirects home. -/
theorem unauthenticated_access (db : DB) (body : Option String) (now cid : Nat)
    (req : ChatRequest) :
    index_route none = HttpResult.redirect "/login" ∧
    profile_route none = HttpResult.redirect "/login" ∧
    consultation_request db none body now = (db, HttpResult.redirect "/login") ∧
    consultations_route db none = HttpResult.redirect "/login" ∧
    chat db none cid req = (db, HttpResult.redirect "/login") ∧
    logout_route none = (none, HttpResult.redirect "/index") :=
  ⟨rfl, rfl, rfl, rfl, rfl, rfl⟩

/-- C2: registration fails (form re-rendered with inline errors, user
table unchanged) whenever the username or email is already taken, the two
passwords differ, the email is malformed, or any required field is blank;
on a valid submission exactly one account is appended whose stored
password is the hash of the submitted password and never the plaintext. -/
theorem register_validation (db : DB) (f : RegistrationForm) :
    ((usernameTaken db f.username = true ∨ emailTaken db f.email = true ∨
      f.password ≠ f.password2 ∨ validEmail f.email = false ∨
      isBlank f.username = true ∨ isBlank f.email = true ∨
      isBlank f.password = true ∨ isBlank f.password2 = true ∨
      isBlank f.role = true) →
      register_route db none (some f) = (db, HttpResult.render "register.html")) ∧
    (registrationValid db f = true →
      ∃ u, (register_route db none (some f)).1.users = db.users ++ [u] ∧
        u.username = f.username ∧ u.email = f.email ∧ u.role = f.role ∧
        u.password_hash = generate_password_hash f.password ∧
        u.password_hash ≠ f.password) := by
  constructor
  · intro hfail
    have hv : registrationValid db f = false := by
      cases hval : registrationValid db f
      · rfl
      · exfalso
        simp only [registrationValid, Bool.and_eq_true, Bool.not_eq_true',
          beq_iff_eq] at hval
        rcases hfail with h | h | h | h | h | h | h | h | h <;> simp_all
    simp only [register_route, hv]
    rfl
  · intro hv
    refine ⟨{ id := nextUid db, username := f.username, email := f.email,
              password_hash := generate_password_hash f.password,
              role := f.role },
            ?_, rfl, rfl, rfl, rfl, generate_password_hash_ne f.password⟩
    simp only [register_route, hv]
    rfl

/-- C2 witness: re-registering the taken username "alice" against the
sample database persists nothing, while a valid fresh registration against
the empty database appends exactly one hashed account. -/
theorem register_validation_witness :
    register_route sampleDB none
        (some { username := "alice", email := "new@x.com", password := "pw",
                password2 := "pw", role := "military" })
      = (sampleDB, HttpResult.render "register.html") ∧
    ∃ u, (register_route { users := [], consultations := [] } none
            (some { username := "dave", email := "d@x.com", password := "pw",
                    password2 := "pw", role := "doctor" })).1.users
        = ({ users := [], consultations := [] } : DB).users ++ [u] ∧
      u.username = "dave" ∧ u.email = "d@x.com" ∧ u.role = "doctor" ∧
      u.password_hash = generate_password_hash "pw" ∧
      u.password_hash ≠ "pw" :=
  ⟨(register_validation sampleDB
      { username := "alice", email := "new@x.com", password := "pw",
        password2 := "pw", role := "military" }).1 (Or.inl (by decide)),
   (register_validation { users := [], consultations := [] }
      { username := "dave", email := "d@x.com", password := "pw",
        password2 := "pw", role := "doctor" }).2 (by decide)⟩

/-- C5: the chat route 404s exactly when no consultation has the requested
id; otherwise the rendered and stored row keeps the original primary key,
and its responder becomes the viewer exactly when the viewer is a doctor
and the row was unclaimed — in every other case (non-doctor viewer, or a
responder already set) the responder column is left unchanged. -/
theorem chat_notfound_and_claim (db : DB) (u : User) (cid : Nat) (req : ChatRequest) :
    ((chat db (some u) cid req).2 = HttpResult.notFound ↔
      ∀ c ∈ db.consultations, c.id ≠ cid) ∧
    (∀ c, db.consultations.find? (fun x => x.id == cid) = some c →
      ∃ c2, (chat db (some u) cid req).2 = HttpResult.renderChat c2 ∧
        c2 ∈ (chat db (some u) cid req).1.consultations ∧ c2.id = c.id ∧
        c2.responder_id =
          (if u.role = "doctor" ∧ c.responder_id = none then some u.id
           else c.responder_id)) := by
  cases hf : db.consultations.find? (fun x => x.id == cid) with
  | none =>
    constructor
    · constructor
      · intro _ c hc hcid
        have h1 := List.find?_eq_none.mp hf c hc
        simp [hcid] at h1
      · intro _
        simp only [chat, hf]
    · intro c hc
      cases hc
  | some c0 =>
    have hc0mem : c0 ∈ db.consultations := List.mem_of_find?_eq_some hf
    have hc0id : c0.id = cid := by
      have h1 := List.find?_some hf
      simpa using h1
    have hchat : chat db (some u) cid req
        = (updateConsultation db (respondRow req (claimRow u c0)),
           HttpResult.renderChat (respondRow req (claimRow u c0))) := by
      simp only [chat, hf]
    constructor
    · rw [hchat]
      constructor
      · intro h
        cases h
      · intro hall
        exact absurd hc0id (hall c0 hc0mem)
    · intro c hc
      injection hc with hc
      subst hc
      refine ⟨respondRow req (claimRow u c0), ?_, ?_, ?_, ?_⟩
      · rw [hchat]
      · rw [hchat]
        exact mem_updateConsultation db _ c0 hc0mem
          (by rw [respondRow_id, claimRow_id])
      · rw [respondRow_id, claimRow_id]
      · rw [respondRow_responder, claimRow_responder]

/-- C5 witness: opening an unknown id 404s; the second doctor carol opening
the consultation already claimed by bob leaves the responder unchanged. -/
theorem chat_notfound_and_claim_witness :
    ((chat sampleDB (some drCarol) 7 { isPost := false, response := none }).2
        = HttpResult.notFound ↔
      ∀ c ∈ sampleDB.consultations, c.id ≠ 7) ∧
    ∃ c2, (chat sampleDB (some drCarol) 1 { isPost := false, response := none }).2
        = HttpResult.renderChat c2 ∧
      c2 ∈ (chat sampleDB (some drCarol) 1
              { isPost := false, response := none }).1.consultations ∧
      c2.id = sampleConsultation.id ∧
      c2.responder_id =
        (if drCarol.role = "doctor" ∧ sampleConsultation.responder_id = none
         then some drCarol.id else sampleConsultation.responder_id) :=
  ⟨(chat_notfound_and_claim sampleDB drCarol 7
      { isPost := false, response := none }).1,
   (chat_notfound_and_claim sampleDB drCarol 1
      { isPost := false, response := none }).2 sampleConsultation (by decide)⟩

/-- C6: for any authenticated user — assigned responder or not — posting a
response text to the chat of an existing consultation overwrites that
response column of that consultation with the submitted text unconditionally;
the previous value is lost. -/
theorem respond_overwrites (db : DB) (u : User) (cid : Nat) (t : String)
    (c : Consultation)
    (hf : db.consultations.find? (fun x => x.id == cid) = some c) :
    ∃ c2, (chat db (some u) cid { isPost := true, response := some t }).2
        = HttpResult.renderChat c2 ∧
      c2.response = some t ∧ c2.id = c.id ∧
      c2 ∈ (chat db (some u) cid
              { isPost := true, response := some t }).1.consultations := by
  have hchat : chat db (some u) cid { isPost := true, response := some t }
      = (updateConsultation db
           (respondRow { isPost := true, response := some t } (claimRow u c)),
         HttpResult.renderChat
           (respondRow { isPost := true, response := some t } (claimRow u c))) := by
    simp only [chat, hf]
  refine ⟨respondRow { isPost := true, response := some t } (claimRow u c),
          ?_, ?_, ?_, ?_⟩
  · rw [hchat]
  · exact respondRow_response_post (some t) (claimRow u c)
  · rw [respondRow_id, claimRow_id]
  · rw [hchat]
    exact mem_updateConsultation db _ c (List.mem_of_find?_eq_some hf)
      (by rw [respondRow_id, claimRow_id])

/-- C6 witness: alice, who is not the assigned responder, posts a response
to the consultation claimed by bob and the stored response becomes her
text, the previous text "old" being lost. -/
theorem respond_overwrites_witness :
    ∃ c2, (chat sampleDB (some alice) 1
             { isPost := true, response := some "see a specialist" }).2
        = HttpResult.renderChat c2 ∧
      c2.response = some "see a specialist" ∧ c2.id = sampleConsultation.id ∧
      c2 ∈ (chat sampleDB (some alice) 1
              { isPost := true, response := some "see a specialist" }).1.consultations :=
  respond_overwrites sampleDB alice 1 "see a specialist" sampleConsultation
    (by decide)

/-- C10: a POST to the chat of an existing consultation whose form data
carries no response field stores `None` in the response column, silently
erasing whatever response text was previously stored. -/
theorem respond_missing_field_erases (db : DB) (u : User) (cid : Nat)
    (c : Consultation)
    (hf : db.consultations.find? (fun x => x.id == cid) = some c) :
    ∃ c2, (chat db (some u) cid { isPost := true, response := none }).2
        = HttpResult.renderChat c2 ∧
      c2.response = none ∧ c2.id = c.id ∧
      c2 ∈ (chat db (some u) cid
              { isPost := true, response := none }).1.consultations := by
  have hchat : chat db (some u) cid { isPost := true, response := none }
      = (updateConsultation db
           (respondRow { isPost := true, response := none } (claimRow u c)),
         HttpResult.renderChat
           (respondRow { isPost := true, response := none } (claimRow u c))) := by
    simp only [chat, hf]
  refine ⟨respondRow { isPost := true, response := none } (claimRow u c),
          ?_, ?_, ?_, ?_⟩
  · rw [hchat]
  · exact respondRow_response_post none (claimRow u c)
  · rw [respondRow_id, claimRow_id]
  · rw [hchat]
    exact mem_updateConsultation db _ c (List.mem_of_find?_eq_some hf)
      (by rw [respondRow_id, claimRow_id])

/-- C10 witness: bob POSTs without a response field to the sample
consultation whose stored response is "old", and the stored response
becomes null. -/
theorem respond_missing_field_erases_witness :
    ∃ c2, (chat sampleDB (some drBob) 1 { isPost := true, response := none }).2
        = HttpResult.renderChat c2 ∧
      c2.response = none ∧ c2.id = sampleConsultation.id ∧
      c2 ∈ (chat sampleDB (some drBob) 1
              { isPost := true, response := none }).1.consultations :=
  respond_missing_field_erases sampleDB drBob 1 sampleConsultation (by decide)

/-- Registration form carrying a role string outside the documented
military/doctor enumeration. -/
def pilotForm : RegistrationForm :=
  { username := "eve", email := "e@x.com", password := "pw",
    password2 := "pw", role := "pilot" }

/-- C8 counterexample: registering with role "pilot" succeeds against the
empty database and persists an account whose role is neither "military"
nor "doctor", so the claimed role enumeration does not hold. -/
theorem role_not_enumerated :
    (register_route { users := [], consultations := [] } none
        (some pilotForm)).1.users
      = [{ id := 1, username := "eve", email := "e@x.com",
           password_hash := generate_password_hash "pw", role := "pilot" }] ∧
    ("pilot" : String) ≠ "military" ∧ ("pilot" : String) ≠ "doctor" :=
  ⟨by decide, by decide, by decide⟩

/-- C8 amended: the role column of a registered account is the role string
taken verbatim from the form; registration constrains it only to be
non-blank (any non-blank string, such as "pilot", is accepted), not to the
enumeration military/doctor. -/
theorem register_role_verbatim (db : DB) (f : RegistrationForm)
    (h : registrationValid db f = true) :
    ∃ u, (register_route db none (some f)).1.users = db.users ++ [u] ∧
      u.role = f.role ∧ isBlank u.role = false := by
  have hrole : isBlank f.role = false := by
    simp only [registrationValid, Bool.and_eq_true, Bool.not_eq_true',
      beq_iff_eq] at h
    exact h.1.1.2
  refine ⟨{ id := nextUid db, username := f.username, email := f.email,
            password_hash := generate_password_hash f.password,
            role := f.role },
          ?_, rfl, hrole⟩
  simp only [register_route, h]
  rfl

/-- C8 amended witness: the "pilot" registration is accepted and stores
that exact non-blank role string. -/
theorem register_role_verbatim_witness :
    ∃ u, (register_route { users := [], consultations := [] } none
            (some pilotForm)).1.users
        = ({ users := [], consultations := [] } : DB).users ++ [u] ∧
      u.role = pilotForm.role ∧ isBlank u.role = false :=
  register_role_verbatim { users := [], consultations := [] } pilotForm (by decide)
